import Mathlib

/-
Verification of the OAuth2 SMTP email backend
(src/website/email_backend.py, class OAuth2EmailBackend).

Shallow embedding: the backend instance's relevant fields become the
`Transport` structure; the process-wide token cache becomes an explicit
association list threaded through `getAccessToken`; network interactions
(the identity-provider round trip and each SMTP protocol step) are
supplied by oracles (`TokenResult`, `SmtpEnv`); python exceptions become
an `Except` over the inductive `SmtpError`, whose constructors correspond
one-to-one to the distinct raise sites of the source, carrying the data
interpolated into the raised message.
-/

namespace EmailBackend

/-- Fields of the backend instance that the modelled methods read:
the SMTP configuration passed to `__init__` and the OAuth2 credentials
pulled from settings (`MICROSOFT_CLIENT_ID`, `MICROSOFT_CLIENT_SECRET`,
`MICROSOFT_TENANT_ID`), plus `user_email`, the address computed at
open() from `EMAIL_HOST_USER` / `DEFAULT_FROM_EMAIL`.  The `connection`
attribute is `none` exactly when the python attribute is `None`
(a python string is falsy iff empty, hence `String` with `""` for
unset username/password). -/
structure Transport where
  connection : Option Unit
  fail_silently : Bool
  use_tls : Bool
  use_ssl : Bool
  username : String
  password : String
  client_id : String
  client_secret : String
  tenant_id : String
  user_email : String
deriving Repr, DecidableEq

/-- Exceptions raised by the source, one constructor per raise site.
`SMTPAuthenticationError(0, "OAuth2 credentials not configured…")` is
`credentialsNotConfigured`; `SMTPAuthenticationError(0, "OAuth2 token
acquisition failed: {error}… Details: {error_description}")` is
`tokenAcquisitionFailed error error_description`;
`SMTPAuthenticationError(code, "OAuth2 authentication failed: {msg}")`
is `authenticationFailed code msg`; errors raised by the underlying
socket / smtplib calls are `transportError`. -/
inductive SmtpError where
  | credentialsNotConfigured
  | tokenAcquisitionFailed (error : String) (errorDescription : String)
  | authenticationFailed (code : Nat) (errorMsg : String)
  | transportError (msg : String)
deriving Repr, DecidableEq

/-- Observable protocol-level actions performed by the transport, used
to state "zero network calls" / "without re-authenticating" claims.
`login` is the base class's password LOGIN, which would be the action of
Django's `SMTP.login` pass-through; `authXOAUTH2 p` is
`docmd("AUTH XOAUTH2", p)`; `tokenAcquire` is a network round trip to
the identity provider. -/
inductive Action where
  | connect
  | ehlo
  | starttls
  | tokenAcquire
  | authXOAUTH2 (payload : String)
  | login (username : String) (password : String)
  | quit
deriving Repr, DecidableEq

/-- Whether an action is a password LOGIN. -/
def Action.isLogin : Action → Bool
  | .login _ _ => true
  | _ => false

/-- The class-level `_token_cache` dict: cache key to access token.
Insertions only ever happen at a key that is absent (they sit under the
same lock as the preceding miss), so a cons-based association list has
exactly the dict's lookup semantics. -/
def Cache := List (String × String)

instance : DecidableEq Cache := by unfold Cache; infer_instance

/-- Result of `msal_app.acquire_token_for_client`: a dict either
containing `"access_token"` or error information (both of
`result.get("error", …)` and `result.get("error_description", …)` may be
absent, hence the `Option`s). -/
inductive TokenResult where
  | success (access_token : String)
  | failure (error : Option String) (error_description : Option String)
deriving Repr, DecidableEq

/-- Line 125: `cache_key = f"{self.client_id}:{self.tenant_id}"`. -/
def cacheKey (t : Transport) : String :=
  t.client_id ++ ":" ++ t.tenant_id

/-- Line 116: `if not all([self.client_id, self.client_secret,
self.tenant_id])` — python `all` over strings tests non-emptiness. -/
def credsConfigured (t : Transport) : Bool :=
  t.client_id ≠ "" && t.client_secret ≠ "" && t.tenant_id ≠ ""

instance {α : Type} [DecidableEq α] : DecidableEq (Except SmtpError α) := fun x y =>
  match x, y with
  | .ok a, .ok b => decidable_of_iff (a = b) (by simp)
  | .error a, .error b => decidable_of_iff (a = b) (by simp)
  | .ok _, .error _ => isFalse (by simp)
  | .error _, .ok _ => isFalse (by simp)

/-- Outcome of a `get_access_token` call: the returned value or raised
error, the state of the class-level cache afterwards, and the number of
network acquisitions (`acquire_token_for_client` calls) performed. -/
structure TokenOutcome where
  result : Except SmtpError String
  cache : Cache
  netCalls : Nat
deriving DecidableEq

/-- Lines 102–174, `OAuth2EmailBackend.get_access_token`: refuse when
credentials are unconfigured; otherwise, under the lock, return a cached
token if the cache key is present; otherwise call
`acquire_token_for_client` (oracle `net`), cache and return the token on
success, and raise `tokenAcquisitionFailed` with the provider's error
code and description (with the source's defaults `"unknown_error"` /
`"No description provided"`) on failure, leaving the cache untouched. -/
def getAccessToken (t : Transport) (cache : Cache) (net : TokenResult) :
    TokenOutcome :=
  if ¬ credsConfigured t then
    ⟨.error .credentialsNotConfigured, cache, 0⟩
  else
    match List.lookup (cacheKey t) cache with
    | some cached_token => ⟨.ok cached_token, cache, 0⟩
    | none =>
      match net with
      | .success access_token =>
          ⟨.ok access_token, (cacheKey t, access_token) :: cache, 1⟩
      | .failure error error_description =>
          ⟨.error (.tokenAcquisitionFailed (error.getD "unknown_error")
              (error_description.getD "No description provided")), cache, 1⟩

/-- Lines 303–311, `OAuth2EmailBackend.clear_token_cache`:
`cls._token_cache.clear()`. -/
def clearTokenCache : Cache := []

/-- The RFC 4648 base64 alphabet, as used by python's
`base64.b64encode`. -/
def b64Char (n : Nat) : Char :=
  ("ABCDEFGHIJKLMNOPQRSTUVWXYZabcdefghijklmnopqrstuvwxyz0123456789+/".data).getD n 'A'

/-- Standard base64 encoding of a byte list, three bytes to four
characters, `=`-padded. -/
def base64EncodeAux : List Nat → List Char
  | [] => []
  | [a] => [b64Char (a / 4), b64Char (a % 4 * 16), '=', '=']
  | [a, b] => [b64Char (a / 4), b64Char (a % 4 * 16 + b / 16),
      b64Char (b % 16 * 4), '=']
  | a :: b :: c :: rest =>
      b64Char (a / 4) :: b64Char (a % 4 * 16 + b / 16) ::
      b64Char (b % 16 * 4 + c / 64) :: b64Char (c % 64) ::
      base64EncodeAux rest

/-- Encoding of one character in UTF-8 (python's `str.encode()`
default), as byte values. -/
def utf8Bytes (c : Char) : List Nat :=
  let n := c.toNat
  if n < 0x80 then [n]
  else if n < 0x800 then [0xC0 + n / 0x40, 0x80 + n % 0x40]
  else if n < 0x10000 then
    [0xE0 + n / 0x1000, 0x80 + n / 0x40 % 0x40, 0x80 + n % 0x40]
  else
    [0xF0 + n / 0x40000, 0x80 + n / 0x1000 % 0x40,
     0x80 + n / 0x40 % 0x40, 0x80 + n % 0x40]

/-- Bytes of a string under UTF-8, matching python's `s.encode()`. -/
def strBytes (s : String) : List Nat :=
  (s.data.map utf8Bytes).flatten

/-- Base64 encoding of the UTF-8 bytes of a string, decoded back to a
string: python's `base64.b64encode(s.encode()).decode()`. -/
def b64encode (s : String) : String :=
  String.mk (base64EncodeAux (strBytes s))

/-- Lines 176–191, `OAuth2EmailBackend.generate_oauth2_string`:
`auth_string = f"user={user}\x01auth=Bearer {access_token}\x01\x01"`,
then `base64.b64encode(auth_string.encode()).decode()`. -/
def generate_oauth2_string (user : String) (access_token : String) : String :=
  b64encode ("user=" ++ user ++ "\x01auth=Bearer " ++ access_token ++ "\x01\x01")

/-- Oracle for the SMTP-side network interactions of one `open()` call:
the outcome of the `SMTP`/`SMTP_SSL` constructor (line 215–228), of the
three `ehlo()` calls (lines 234, 239, 257), of `starttls()` (line 238),
the identity provider's reply used by `get_access_token` (line 140), and
the outcome of `docmd("AUTH XOAUTH2", …)` (line 261): either a raised
transport error or a `(code, response)` reply. -/
structure SmtpEnv where
  connectR : Except SmtpError Unit
  ehloA : Except SmtpError Unit
  starttlsR : Except SmtpError Unit
  ehloB : Except SmtpError Unit
  ehloC : Except SmtpError Unit
  tokenNet : TokenResult
  docmdR : Except SmtpError (Nat × String)

/-- Lines 237–239: `if self.use_tls and not self.use_ssl:
self.connection.starttls(); self.connection.ehlo()`.  Returns the
block's outcome and the actions it performed. -/
def tlsStep (t : Transport) (env : SmtpEnv) :
    Except SmtpError Unit × List Action :=
  if t.use_tls && !t.use_ssl then
    match env.starttlsR with
    | .error e => (.error e, [.starttls])
    | .ok _ =>
      match env.ehloB with
      | .error e => (.error e, [.starttls, .ehlo])
      | .ok _ => (.ok (), [.starttls, .ehlo])
  else (.ok (), [])

/-- Outcome of the body of `open()`'s try block: its result, the value
of `self.connection` on exit (set as soon as the constructor returns,
line 217/224, hence `some ()` on every error after that point), the
token cache, and the actions performed. -/
structure AttemptOutcome where
  result : Except SmtpError Unit
  connection : Option Unit
  cache : Cache
  acts : List Action
deriving DecidableEq

/-- Actions of the `get_access_token()` call inside `open()`: a network
acquisition appears exactly when the call was a cache miss. -/
def tokenActs (t : Transport) (env : SmtpEnv) (cache : Cache) : List Action :=
  if (getAccessToken t cache env.tokenNet).netCalls = 0 then []
  else [.tokenAcquire]

/-- Lines 207–275, the try block of `OAuth2EmailBackend.open`: connect,
EHLO, optional STARTTLS + EHLO, `get_access_token()`, build the XOAUTH2
payload with `generate_oauth2_string`, EHLO, submit
`docmd("AUTH XOAUTH2", payload)`, and raise `authenticationFailed` on
any reply code other than 235.  No password login exists on any path:
the method replaces the base class's authentication wholesale. -/
def openAttempt (t : Transport) (env : SmtpEnv) (cache : Cache) :
    AttemptOutcome :=
  match env.connectR with
  | .error e => ⟨.error e, none, cache, [.connect]⟩
  | .ok _ =>
    match env.ehloA with
    | .error e => ⟨.error e, some (), cache, [.connect, .ehlo]⟩
    | .ok _ =>
      match tlsStep t env with
      | (.error e, tacts) =>
          ⟨.error e, some (), cache, .connect :: .ehlo :: tacts⟩
      | (.ok _, tacts) =>
        match (getAccessToken t cache env.tokenNet).result with
        | .error e =>
            ⟨.error e, some (), (getAccessToken t cache env.tokenNet).cache,
              .connect :: .ehlo :: (tacts ++ tokenActs t env cache)⟩
        | .ok access_token =>
          match env.ehloC with
          | .error e =>
              ⟨.error e, some (), (getAccessToken t cache env.tokenNet).cache,
                .connect :: .ehlo :: (tacts ++ tokenActs t env cache ++ [.ehlo])⟩
          | .ok _ =>
            match env.docmdR with
            | .error e =>
                ⟨.error e, some (), (getAccessToken t cache env.tokenNet).cache,
                  .connect :: .ehlo :: (tacts ++ tokenActs t env cache ++
                    [.ehlo, .authXOAUTH2
                      (generate_oauth2_string t.user_email access_token)])⟩
            | .ok (code, response) =>
              if code ≠ 235 then
                ⟨.error (.authenticationFailed code
                    ("OAuth2 authentication failed: " ++ response)),
                  some (), (getAccessToken t cache env.tokenNet).cache,
                  .connect :: .ehlo :: (tacts ++ tokenActs t env cache ++
                    [.ehlo, .authXOAUTH2
                      (generate_oauth2_string t.user_email access_token)])⟩
              else
                ⟨.ok (), some (), (getAccessToken t cache env.tokenNet).cache,
                  .connect :: .ehlo :: (tacts ++ tokenActs t env cache ++
                    [.ehlo, .authXOAUTH2
                      (generate_oauth2_string t.user_email access_token)])⟩

/-- Outcome of a full `open()` call: returned value or propagated error,
the transport afterwards, the token cache, and the actions performed. -/
structure OpenOutcome where
  result : Except SmtpError Bool
  state : Transport
  cache : Cache
  acts : List Action
deriving DecidableEq

/-- Actions of the except blocks of `open()`: the best-effort `quit()`
happens exactly when a connection object exists (lines 280–285,
292–298); its own errors are swallowed. -/
def teardownActs (t : Transport) (env : SmtpEnv) (cache : Cache) : List Action :=
  if (openAttempt t env cache).connection.isSome then
    (openAttempt t env cache).acts ++ [.quit]
  else (openAttempt t env cache).acts

/-- Lines 193–301, `OAuth2EmailBackend.open`: return `False` at once if
a connection is already established (lines 203–205); otherwise run the
try block; on success return `True`; on any raised error close a
partially established connection with a best-effort `quit()` whose own
errors are swallowed (lines 280–285 and 292–298), set
`self.connection = None`, then re-raise unless `fail_silently`, in which
case return `False`. -/
def openModel (t : Transport) (env : SmtpEnv) (cache : Cache) :
    OpenOutcome :=
  if t.connection.isSome then ⟨.ok false, t, cache, []⟩
  else
    match (openAttempt t env cache).result with
    | .ok _ =>
        ⟨.ok true, { t with connection := (openAttempt t env cache).connection },
          (openAttempt t env cache).cache, (openAttempt t env cache).acts⟩
    | .error e =>
      if t.fail_silently then
        ⟨.ok false, { t with connection := none },
          (openAttempt t env cache).cache, teardownActs t env cache⟩
      else
        ⟨.error e, { t with connection := none },
          (openAttempt t env cache).cache, teardownActs t env cache⟩

/-- Concrete closed transport: no open connection, `fail_silently`
off, STARTTLS configuration, valid OAuth2 credentials, no static
username/password. -/
def tNoConn : Transport :=
  ⟨none, false, true, false, "", "", "cid", "sec", "tid", "user@example.com"⟩

/-- Concrete transport with static username and password configured
(and valid OAuth2 credentials), used to exercise the authentication
branch choice. -/
def tUserPass : Transport :=
  ⟨none, false, true, false, "admin", "hunter2", "cid", "sec", "tid",
    "admin@example.com"⟩

/-- Oracle in which every SMTP step succeeds and the server accepts the
AUTH XOAUTH2 command with code 235. -/
def envAllOk : SmtpEnv :=
  ⟨.ok (), .ok (), .ok (), .ok (), .ok (), .success "TOK",
    .ok (235, "2.7.0 Authentication successful")⟩

/-- Oracle in which the initial TCP connect raises a transport error. -/
def envConnFail : SmtpEnv :=
  ⟨.error (.transportError "Connection refused"), .ok (), .ok (), .ok (),
    .ok (), .success "TOK", .ok (235, "2.7.0 Authentication successful")⟩

/-- Oracle in which every step succeeds but the server rejects the AUTH
XOAUTH2 command with code 535. -/
def env535 : SmtpEnv :=
  ⟨.ok (), .ok (), .ok (), .ok (), .ok (), .success "TOK",
    .ok (535, "5.7.3 Authentication unsuccessful")⟩

/-- Splitting a character list at a separator that occurs in neither
left part is unambiguous. -/
theorem append_colon_inj (xs : List Char) :
    ∀ (xs' ys ys' : List Char), ':' ∉ xs → ':' ∉ xs' →
      xs ++ ':' :: ys = xs' ++ ':' :: ys' → xs = xs' ∧ ys = ys' := by
  induction xs with
  | nil =>
    intro xs' ys ys' _ h2 heq
    cases xs' with
    | nil => simpa using heq
    | cons c rest =>
      simp only [List.nil_append, List.cons_append, List.cons.injEq] at heq
      exact absurd (heq.1 ▸ List.mem_cons_self c rest) (heq.1 ▸ h2)
  | cons c rest ih =>
    intro xs' ys ys' h1 h2 heq
    cases xs' with
    | nil =>
      simp only [List.cons_append, List.nil_append, List.cons.injEq] at heq
      exact absurd (heq.1 ▸ List.mem_cons_self c rest) (heq.1 ▸ h1)
    | cons c' rest' =>
      simp only [List.cons_append, List.cons.injEq] at heq
      have h1' : ':' ∉ rest := fun hm => h1 (List.mem_cons_of_mem c hm)
      have h2' : ':' ∉ rest' := fun hm => h2 (List.mem_cons_of_mem c' hm)
      obtain ⟨he, hys⟩ := ih rest' ys ys' h1' h2' heq.2
      exact ⟨by rw [heq.1, he], hys⟩

/-- Claim C3: `generate_oauth2_string` is a pure deterministic function
of `(user, token)` — in this embedding it is a function, so determinism
and absence of side effects are structural — and for user
`"admin@example.com"` and token `"T123"` it returns exactly the base64
encoding of `"user=admin@example.com\x01auth=Bearer T123\x01\x01"`,
which is the literal checked in the second conjunct. -/
theorem C3_generate_oauth2_string :
    generate_oauth2_string "admin@example.com" "T123" =
      b64encode "user=admin@example.com\x01auth=Bearer T123\x01\x01" ∧
    generate_oauth2_string "admin@example.com" "T123" =
      "dXNlcj1hZG1pbkBleGFtcGxlLmNvbQFhdXRoPUJlYXJlciBUMTIzAQE=" :=
  ⟨rfl, by decide⟩

/-- Claim C4: with any credential field empty, `get_access_token` fails
with the credentials-not-configured error and performs zero network
calls. -/
theorem C4_credentials_not_configured (t : Transport) (cache : Cache)
    (net : TokenResult)
    (h : t.client_id = "" ∨ t.client_secret = "" ∨ t.tenant_id = "") :
    (getAccessToken t cache net).result = .error .credentialsNotConfigured ∧
    (getAccessToken t cache net).netCalls = 0 := by
  have hc : credsConfigured t = false := by
    rcases h with h | h | h <;> simp [credsConfigured, h]
  simp [getAccessToken, hc]

/-- Witness for C4 at a concrete transport with an empty client secret. -/
theorem C4_credentials_not_configured_witness :
    (getAccessToken ⟨none, false, true, false, "", "", "cid", "", "tid", "a@b"⟩
        [] (.success "tok")).result = .error .credentialsNotConfigured ∧
    (getAccessToken ⟨none, false, true, false, "", "", "cid", "", "tid", "a@b"⟩
        [] (.success "tok")).netCalls = 0 :=
  C4_credentials_not_configured _ [] (.success "tok") (.inr (.inl rfl))

/-- Claim C10: the credential-configuration check precedes every cache
access — with any credential field empty, the call fails with the
credentials-not-configured error for every cache state (even one holding
a token under the matching key), returns the cache unchanged, and
performs zero network calls; the outcome is independent of the cache
content. -/
theorem C10_check_precedes_cache (t : Transport)
    (h : t.client_id = "" ∨ t.client_secret = "" ∨ t.tenant_id = "") :
    ∀ (cache : Cache) (net : TokenResult),
      getAccessToken t cache net = ⟨.error .credentialsNotConfigured, cache, 0⟩ := by
  intro cache net
  have hc : credsConfigured t = false := by
    rcases h with h | h | h <;> simp [credsConfigured, h]
  simp [getAccessToken, hc]

/-- Witness for C10: an empty tenant id fails even though the cache
holds a token under the matching key `"cid:"`, and that entry survives
untouched. -/
theorem C10_check_precedes_cache_witness :
    getAccessToken ⟨none, false, true, false, "", "", "cid", "sec", "", "a@b"⟩
        [("cid:", "cachedTok")] (.success "fresh") =
      ⟨.error .credentialsNotConfigured, [("cid:", "cachedTok")], 0⟩ :=
  C10_check_precedes_cache _ (.inr (.inr rfl)) _ _

/-- Claim C2: for a valid credential triple whose key is not yet cached,
the first call performs exactly one network acquisition and stores the
token; every subsequent call returns the cached token with zero network
calls whatever the provider would answer; and after `clear_cache()` any
call performs a fresh network acquisition. -/
theorem C2_token_caching (t : Transport) (cache : Cache) (tok : String)
    (hv : t.client_id ≠ "" ∧ t.client_secret ≠ "" ∧ t.tenant_id ≠ "")
    (hm : List.lookup (cacheKey t) cache = none) :
    getAccessToken t cache (.success tok) =
      ⟨.ok tok, (cacheKey t, tok) :: cache, 1⟩ ∧
    (∀ net2, getAccessToken t ((cacheKey t, tok) :: cache) net2 =
      ⟨.ok tok, (cacheKey t, tok) :: cache, 0⟩) ∧
    (∀ net3, (getAccessToken t clearTokenCache net3).netCalls = 1) := by
  have hc : credsConfigured t = true := by
    simp [credsConfigured, hv.1, hv.2.1, hv.2.2]
  refine ⟨by simp [getAccessToken, hc, hm], fun net2 => ?_, fun net3 => ?_⟩
  · simp [getAccessToken, hc, List.lookup]
  · cases net3 <;> simp [getAccessToken, hc, clearTokenCache, List.lookup]

/-- Witness for C2 at a concrete valid triple and empty cache. -/
theorem C2_token_caching_witness :
    getAccessToken ⟨none, false, true, false, "", "", "cid", "sec", "tid", "a@b"⟩
        [] (.success "T") = ⟨.ok "T", [("cid:tid", "T")], 1⟩ ∧
    (∀ net2, getAccessToken
        ⟨none, false, true, false, "", "", "cid", "sec", "tid", "a@b"⟩
        [("cid:tid", "T")] net2 = ⟨.ok "T", [("cid:tid", "T")], 0⟩) ∧
    (∀ net3, (getAccessToken
        ⟨none, false, true, false, "", "", "cid", "sec", "tid", "a@b"⟩
        clearTokenCache net3).netCalls = 1) :=
  C2_token_caching _ [] "T" ⟨by decide, by decide, by decide⟩ rfl

/-- Claim C7: when the grant response lacks an access token and carries
error `"invalid_client"` with description `"bad secret"`, the call fails
with exactly those fields in the failure payload and the cache is left
unchanged. -/
theorem C7_token_acquisition_failed (t : Transport) (cache : Cache)
    (hv : t.client_id ≠ "" ∧ t.client_secret ≠ "" ∧ t.tenant_id ≠ "")
    (hm : List.lookup (cacheKey t) cache = none) :
    getAccessToken t cache
        (.failure (some "invalid_client") (some "bad secret")) =
      ⟨.error (.tokenAcquisitionFailed "invalid_client" "bad secret"),
        cache, 1⟩ := by
  have hc : credsConfigured t = true := by
    simp [credsConfigured, hv.1, hv.2.1, hv.2.2]
  simp [getAccessToken, hc, hm]

/-- Witness for C7 at a concrete valid triple and empty cache. -/
theorem C7_token_acquisition_failed_witness :
    getAccessToken ⟨none, false, true, false, "", "", "cid", "sec", "tid", "a@b"⟩
        [] (.failure (some "invalid_client") (some "bad secret")) =
      ⟨.error (.tokenAcquisitionFailed "invalid_client" "bad secret"), [], 1⟩ :=
  C7_token_acquisition_failed _ [] ⟨by decide, by decide, by decide⟩ rfl

/-- Claim C9 counterexample: the cache key is built by joining client id
and tenant id with `":"`, so the distinct pairs `("a:b", "c")` and
`("a", "b:c")` collide on the same cached token slot, refuting "distinct
(client_id, tenant_id) pairs always get distinct slots". -/
theorem C9_counterexample :
    cacheKey ⟨none, false, true, false, "", "", "a:b", "s1", "c", "e"⟩ =
      cacheKey ⟨none, false, true, false, "", "", "a", "s2", "b:c", "e"⟩ ∧
    ¬((Transport.client_id ⟨none, false, true, false, "", "", "a:b", "s1", "c", "e"⟩ =
        Transport.client_id ⟨none, false, true, false, "", "", "a", "s2", "b:c", "e"⟩) ∧
      (Transport.tenant_id ⟨none, false, true, false, "", "", "a:b", "s1", "c", "e"⟩ =
        Transport.tenant_id ⟨none, false, true, false, "", "", "a", "s2", "b:c", "e"⟩)) := by
  constructor
  · rfl
  · intro h
    exact absurd h.1 (by decide)

/-- Claim C9 as amended: the cache key is the string
`client_id ++ ":" ++ tenant_id`.  It depends only on the pair
`(client_id, tenant_id)` — configurations differing only in
client_secret share a slot — and two configurations whose client ids
contain no `':'` share a slot exactly when they agree on client id and
tenant id; with a `':'` inside a client id distinct pairs may collide. -/
theorem C9_amended (t u : Transport)
    (h1 : ':' ∉ t.client_id.data) (h2 : ':' ∉ u.client_id.data) :
    (t.client_id = u.client_id → t.tenant_id = u.tenant_id →
      cacheKey t = cacheKey u) ∧
    (cacheKey t = cacheKey u →
      t.client_id = u.client_id ∧ t.tenant_id = u.tenant_id) := by
  constructor
  · intro hi ht
    unfold cacheKey
    rw [hi, ht]
  · intro hk
    have hd : t.client_id.data ++ ':' :: t.tenant_id.data =
        u.client_id.data ++ ':' :: u.tenant_id.data := by
      have := congrArg String.data hk
      simpa [cacheKey, String.data_append] using this
    obtain ⟨ha, hb⟩ := append_colon_inj _ _ _ _ h1 h2 hd
    exact ⟨String.ext ha, String.ext hb⟩

/-- Witness for C9's amended theorem at two colon-free client ids. -/
theorem C9_amended_witness :
    (Transport.client_id ⟨none, false, true, false, "", "", "cid", "s1", "tid", "e"⟩ =
        Transport.client_id ⟨none, false, true, false, "", "", "cid", "s2", "tid", "e"⟩ →
      Transport.tenant_id ⟨none, false, true, false, "", "", "cid", "s1", "tid", "e"⟩ =
        Transport.tenant_id ⟨none, false, true, false, "", "", "cid", "s2", "tid", "e"⟩ →
      cacheKey ⟨none, false, true, false, "", "", "cid", "s1", "tid", "e"⟩ =
        cacheKey ⟨none, false, true, false, "", "", "cid", "s2", "tid", "e"⟩) ∧
    (cacheKey ⟨none, false, true, false, "", "", "cid", "s1", "tid", "e"⟩ =
        cacheKey ⟨none, false, true, false, "", "", "cid", "s2", "tid", "e"⟩ →
      Transport.client_id ⟨none, false, true, false, "", "", "cid", "s1", "tid", "e"⟩ =
          Transport.client_id ⟨none, false, true, false, "", "", "cid", "s2", "tid", "e"⟩ ∧
        Transport.tenant_id ⟨none, false, true, false, "", "", "cid", "s1", "tid", "e"⟩ =
          Transport.tenant_id ⟨none, false, true, false, "", "", "cid", "s2", "tid", "e"⟩) :=
  C9_amended _ _ (by decide) (by decide)

/-- The optional STARTTLS block performs at most `starttls` and `ehlo`
actions. -/
theorem tlsStep_acts (t : Transport) (env : SmtpEnv) :
    (tlsStep t env).2 = [] ∨ (tlsStep t env).2 = [.starttls] ∨
      (tlsStep t env).2 = [.starttls, .ehlo] := by
  unfold tlsStep
  split
  · cases env.starttlsR with
    | error e => simp
    | ok u =>
      cases env.ehloB with
      | error e => simp
      | ok u => simp
  · simp

/-- When both STARTTLS steps succeed, the block succeeds whatever the
TLS configuration. -/
theorem tlsStep_ok (t : Transport) (env : SmtpEnv)
    (hs : env.starttlsR = .ok ()) (h2 : env.ehloB = .ok ()) :
    tlsStep t env =
      (.ok (), if t.use_tls && !t.use_ssl then [.starttls, .ehlo] else []) := by
  unfold tlsStep
  split <;> simp [hs, h2]

/-- The token-acquisition step never performs a password LOGIN. -/
theorem tokenActs_no_login (t : Transport) (env : SmtpEnv) (cache : Cache) :
    ((tokenActs t env cache).all fun a => !a.isLogin) = true := by
  unfold tokenActs
  split <;> simp [Action.isLogin]

/-- No branch of the try block of `open()` ever performs a password
LOGIN. -/
theorem openAttempt_no_login (t : Transport) (env : SmtpEnv) (cache : Cache) :
    ((openAttempt t env cache).acts.all fun a => !a.isLogin) = true := by
  have htk : tokenActs t env cache = [] ∨
      tokenActs t env cache = [.tokenAcquire] := by
    unfold tokenActs; split <;> simp
  unfold openAttempt
  cases env.connectR with
  | error e => rfl
  | ok u =>
    cases env.ehloA with
    | error e => rfl
    | ok u =>
      rcases htls : tlsStep t env with ⟨tr, tacts⟩
      have hshape : tacts = [] ∨ tacts = [.starttls] ∨
          tacts = [.starttls, .ehlo] := by
        have h0 := tlsStep_acts t env
        rw [htls] at h0
        simpa using h0
      cases tr with
      | error e => rcases hshape with rfl | rfl | rfl <;> rfl
      | ok u =>
        cases hr : (getAccessToken t cache env.tokenNet).result with
        | error e =>
          rcases hshape with rfl | rfl | rfl <;> rcases htk with h2 | h2 <;>
            rw [h2] <;> rfl
        | ok tok =>
          cases env.ehloC with
          | error e =>
            rcases hshape with rfl | rfl | rfl <;> rcases htk with h2 | h2 <;>
              rw [h2] <;> rfl
          | ok u =>
            cases env.docmdR with
            | error e =>
              rcases hshape with rfl | rfl | rfl <;> rcases htk with h2 | h2 <;>
                rw [h2] <;> rfl
            | ok cr =>
              rcases cr with ⟨code, response⟩
              rcases hshape with rfl | rfl | rfl <;> rcases htk with h2 | h2 <;>
                rw [h2] <;> by_cases hcode : code = 235 <;>
                simp [hcode, Action.isLogin]

/-- A successful try block submitted an AUTH XOAUTH2 command. -/
theorem openAttempt_ok_auth (t : Transport) (env : SmtpEnv) (cache : Cache) :
    (openAttempt t env cache).result = .ok () →
    ∃ p, Action.authXOAUTH2 p ∈ (openAttempt t env cache).acts := by
  unfold openAttempt
  cases env.connectR with
  | error e => intro h; simp at h
  | ok u =>
    cases env.ehloA with
    | error e => intro h; simp at h
    | ok u =>
      rcases htls : tlsStep t env with ⟨tr, tacts⟩
      cases tr with
      | error e => intro h; simp at h
      | ok u =>
        cases hr : (getAccessToken t cache env.tokenNet).result with
        | error e => intro h; simp at h
        | ok tok =>
          cases env.ehloC with
          | error e => intro h; simp at h
          | ok u =>
            cases env.docmdR with
            | error e => intro h; simp at h
            | ok cr =>
              rcases cr with ⟨code, response⟩
              intro h
              refine ⟨generate_oauth2_string t.user_email tok, ?_⟩
              by_cases hcode : code = 235 <;> simp [hcode]

/-- When every protocol step up to the AUTH command succeeds and the
token provider yields a token, the try block reaches the AUTH XOAUTH2
submission; its outcome is decided by the server's reply code, the
connection is established, and the cache is the token provider's. -/
theorem openAttempt_reaches_auth (t : Transport) (env : SmtpEnv) (cache : Cache)
    (tok : String) (code : Nat) (resp : String)
    (hc : env.connectR = .ok ()) (h1 : env.ehloA = .ok ())
    (hs : env.starttlsR = .ok ()) (h2 : env.ehloB = .ok ())
    (h3 : env.ehloC = .ok ())
    (htok : (getAccessToken t cache env.tokenNet).result = .ok tok)
    (hd : env.docmdR = .ok (code, resp)) :
    (openAttempt t env cache).result =
      (if code = 235 then .ok ()
       else .error (.authenticationFailed code
          ("OAuth2 authentication failed: " ++ resp))) ∧
    (openAttempt t env cache).connection = some () ∧
    (openAttempt t env cache).cache = (getAccessToken t cache env.tokenNet).cache ∧
    Action.authXOAUTH2 (generate_oauth2_string t.user_email tok) ∈
      (openAttempt t env cache).acts := by
  have hts := tlsStep_ok t env hs h2
  unfold openAttempt
  cases hb : (t.use_tls && !t.use_ssl) <;> rw [hb] at hts <;>
    rw [hc, h1, hts, htok, h3, hd] <;>
    by_cases hcode : code = 235 <;>
    simp [hcode]

/-- When the try block raises, `open()` tears the connection down and
reports according to `fail_silently`. -/
theorem openModel_error_case (t : Transport) (env : SmtpEnv) (cache : Cache)
    (e : SmtpError) (hconn : t.connection = none)
    (hfail : (openAttempt t env cache).result = .error e) :
    openModel t env cache =
      ⟨if t.fail_silently then .ok false else .error e,
        { t with connection := none },
        (openAttempt t env cache).cache, teardownActs t env cache⟩ := by
  cases hf : t.fail_silently <;> simp [openModel, hconn, hfail, hf]

/-- The actions of `open()` are empty (already-open case) or those of
the try block, possibly followed by the teardown `quit()`. -/
theorem openModel_acts_cases (t : Transport) (env : SmtpEnv) (cache : Cache) :
    (openModel t env cache).acts = [] ∨
    (openModel t env cache).acts = (openAttempt t env cache).acts ∨
    (openModel t env cache).acts =
      (openAttempt t env cache).acts ++ [Action.quit] := by
  unfold openModel teardownActs
  by_cases hconn : t.connection.isSome
  · simp [hconn]
  · cases hres : (openAttempt t env cache).result with
    | ok u => simp [hconn, hres]
    | error e =>
      cases hf : t.fail_silently <;>
        by_cases hq : (openAttempt t env cache).connection.isSome <;>
        simp [hconn, hres, hf, hq]

/-- No action of `open()` is ever a password LOGIN. -/
theorem openModel_no_login (t : Transport) (env : SmtpEnv) (cache : Cache) :
    ((openModel t env cache).acts.all fun a => !a.isLogin) = true := by
  have h := openAttempt_no_login t env cache
  rcases openModel_acts_cases t env cache with ha | ha | ha <;> rw [ha]
  · rfl
  · exact h
  · rw [List.all_append, h]
    rfl

/-- Claim C1 counterexample: a transport configured with a static
username and password still authenticates through OAuth2/XOAUTH2 —
the successful run performs no password LOGIN action at all, refuting
"open() performs standard password login" for such configurations. -/
theorem C1_counterexample :
    tUserPass.username ≠ "" ∧ tUserPass.password ≠ "" ∧
    (openModel tUserPass envAllOk []).result = .ok true ∧
    ((openModel tUserPass envAllOk []).acts.all fun a => !a.isLogin) = true ∧
    Action.authXOAUTH2 (generate_oauth2_string "admin@example.com" "TOK") ∈
      (openModel tUserPass envAllOk []).acts := by
  refine ⟨by decide, by decide, by decide, by decide, by decide⟩

/-- Claim C1 as amended: `open()` never performs password login, even
when static username and password are configured — the override replaces
the base class's authentication wholesale — and every successful
`open()` authenticates via an AUTH XOAUTH2 submission. -/
theorem C1_amended (t : Transport) (env : SmtpEnv) (cache : Cache) :
    (∀ a ∈ (openModel t env cache).acts, a.isLogin = false) ∧
    ((openModel t env cache).result = .ok true →
      ∃ p, Action.authXOAUTH2 p ∈ (openModel t env cache).acts) := by
  constructor
  · intro a ha
    have h := openModel_no_login t env cache
    rw [List.all_eq_true] at h
    simpa using h a ha
  · intro hr
    by_cases hconn : t.connection.isSome
    · simp [openModel, hconn] at hr
    · cases hres : (openAttempt t env cache).result with
      | ok u =>
        obtain ⟨p, hp⟩ := openAttempt_ok_auth t env cache (by rw [hres])
        exact ⟨p, by simpa [openModel, hconn, hres] using hp⟩
      | error e =>
        cases hf : t.fail_silently <;> simp [openModel, hconn, hres, hf] at hr

/-- Witness for C1's amended theorem: the concrete successful run on
`tUserPass` performs no password login and does submit AUTH XOAUTH2. -/
theorem C1_amended_witness :
    (∀ a ∈ (openModel tUserPass envAllOk []).acts, a.isLogin = false) ∧
    (∃ p, Action.authXOAUTH2 p ∈ (openModel tUserPass envAllOk []).acts) :=
  ⟨(C1_amended tUserPass envAllOk []).1,
   (C1_amended tUserPass envAllOk []).2 (by decide)⟩

/-- Claim C5: for every failure inside the try block of `open()` — a
connect, handshake, token or authentication error — the transport ends
Closed (`connection = none`); with `fail_silently` the call returns
`false` and surfaces no error, without it the original error
propagates; and a partially established connection is released by the
best-effort `quit()` (whose own errors the model swallows
structurally). -/
theorem C5_fail_silently (t : Transport) (env : SmtpEnv) (cache : Cache)
    (e : SmtpError) (hconn : t.connection = none)
    (hfail : (openAttempt t env cache).result = .error e) :
    (t.fail_silently = true → (openModel t env cache).result = .ok false) ∧
    (t.fail_silently = false → (openModel t env cache).result = .error e) ∧
    (openModel t env cache).state.connection = none ∧
    ((openAttempt t env cache).connection.isSome = true →
      Action.quit ∈ (openModel t env cache).acts) := by
  have hm := openModel_error_case t env cache e hconn hfail
  rw [hm]
  refine ⟨fun hf => by simp [hf], fun hf => by simp [hf], rfl, fun hq => ?_⟩
  simp [teardownActs, hq]

/-- Witness for C5: a concrete connect failure with `fail_silently`
off propagates the original transport error and leaves the transport
Closed. -/
theorem C5_fail_silently_witness :
    (openModel tNoConn envConnFail []).result =
      .error (.transportError "Connection refused") ∧
    (openModel tNoConn envConnFail []).state.connection = none :=
  ⟨(C5_fail_silently tNoConn envConnFail [] _ rfl rfl).2.1 rfl,
   (C5_fail_silently tNoConn envConnFail [] _ rfl rfl).2.2.1⟩

/-- Claim C6: when the server answers the AUTH XOAUTH2 command with any
code other than 235, `open()` (with `fail_silently` off, as the
propagation presupposes) fails with the authentication error carrying
that code and the server's message, and the connection is closed —
torn down by `quit()` and left `none`. -/
theorem C6_auth_reject (t : Transport) (env : SmtpEnv) (cache : Cache)
    (tok : String) (code : Nat) (resp : String)
    (hconn : t.connection = none) (hfs : t.fail_silently = false)
    (hc : env.connectR = .ok ()) (h1 : env.ehloA = .ok ())
    (hs : env.starttlsR = .ok ()) (h2 : env.ehloB = .ok ())
    (h3 : env.ehloC = .ok ())
    (htok : (getAccessToken t cache env.tokenNet).result = .ok tok)
    (hd : env.docmdR = .ok (code, resp))
    (hcode : code ≠ 235) :
    (openModel t env cache).result =
      .error (.authenticationFailed code
        ("OAuth2 authentication failed: " ++ resp)) ∧
    (openModel t env cache).state.connection = none ∧
    Action.quit ∈ (openModel t env cache).acts := by
  obtain ⟨hres, hcn, hcache, hmem⟩ :=
    openAttempt_reaches_auth t env cache tok code resp hc h1 hs h2 h3 htok hd
  rw [if_neg hcode] at hres
  have hm := openModel_error_case t env cache _ hconn hres
  rw [hm]
  refine ⟨by simp [hfs], rfl, ?_⟩
  simp [teardownActs, hcn]

/-- Witness for C6: the server rejects with 535 and `open()` fails with
code 535 and the server message, the connection closed. -/
theorem C6_auth_reject_witness :
    (openModel tNoConn env535 []).result =
      .error (.authenticationFailed 535
        ("OAuth2 authentication failed: " ++ "5.7.3 Authentication unsuccessful")) ∧
    (openModel tNoConn env535 []).state.connection = none ∧
    Action.quit ∈ (openModel tNoConn env535 []).acts :=
  C6_auth_reject tNoConn env535 [] "TOK" 535 "5.7.3 Authentication unsuccessful"
    rfl rfl rfl rfl rfl rfl rfl rfl rfl (by decide)

/-- Claim C8: `open()` is idempotent with respect to an established
connection — a first successful call returns `true` and establishes the
connection, and on any transport whose connection is established,
`open()` returns `false` immediately, with no protocol actions (no
re-authentication, no server contact) and no state change. -/
theorem C8_open_idempotent (t : Transport) (env env2 : SmtpEnv)
    (cache cache2 : Cache) (tok resp : String)
    (hconn : t.connection = none)
    (hc : env.connectR = .ok ()) (h1 : env.ehloA = .ok ())
    (hs : env.starttlsR = .ok ()) (h2 : env.ehloB = .ok ())
    (h3 : env.ehloC = .ok ())
    (htok : (getAccessToken t cache env.tokenNet).result = .ok tok)
    (hd : env.docmdR = .ok (235, resp)) :
    (openModel t env cache).result = .ok true ∧
    openModel (openModel t env cache).state env2 cache2 =
      ⟨.ok false, (openModel t env cache).state, cache2, []⟩ ∧
    (∀ s : Transport, s.connection.isSome = true →
      openModel s env2 cache2 = ⟨.ok false, s, cache2, []⟩) := by
  obtain ⟨hres, hcn, hcache, hmem⟩ :=
    openAttempt_reaches_auth t env cache tok 235 resp hc h1 hs h2 h3 htok hd
  rw [if_pos rfl] at hres
  have hsuccess : openModel t env cache =
      ⟨.ok true, { t with connection := (openAttempt t env cache).connection },
        (openAttempt t env cache).cache, (openAttempt t env cache).acts⟩ := by
    simp [openModel, hconn, hres]
  have hopen2 : ∀ s : Transport, s.connection.isSome = true →
      openModel s env2 cache2 = ⟨.ok false, s, cache2, []⟩ := by
    intro s hsome
    simp [openModel, hsome]
  have hstate : (openModel t env cache).state.connection = some () := by
    rw [hsuccess]
    simpa using hcn
  refine ⟨by rw [hsuccess], hopen2 _ ?_, hopen2⟩
  rw [hstate]
  rfl

/-- Witness for C8: a concrete successful first call, after which a
second call — even against a failing oracle — returns `false` with no
actions and no state change. -/
theorem C8_open_idempotent_witness :
    (openModel tNoConn envAllOk []).result = .ok true ∧
    openModel (openModel tNoConn envAllOk []).state envConnFail [] =
      ⟨.ok false, (openModel tNoConn envAllOk []).state, [], []⟩ :=
  ⟨(C8_open_idempotent tNoConn envAllOk envConnFail [] [] "TOK"
      "2.7.0 Authentication successful" rfl rfl rfl rfl rfl rfl rfl rfl).1,
   (C8_open_idempotent tNoConn envAllOk envConnFail [] [] "TOK"
      "2.7.0 Authentication successful" rfl rfl rfl rfl rfl rfl rfl rfl).2.1⟩

end EmailBackend
